import Mathlib

/-
Verification development for the p2pFileShare repository.

Shallow embedding of the core data model and operations:
  - peer/message/message.go   : the Message envelope, construction, JSON
    encode/decode (modelled at the level of JSON values: the external JSON
    parser/printer pair is abstracted, an unparsable byte string is the
    input value none).
  - peer/connection/conn.go   : the Connection record, NewConnection, Send,
    Close, the heartbeat task (its per-step behaviour).
  - peer.go                   : the registry (a sync.Map from address to
    Connection, modelled as a function String to Option Connection),
    Peer.Store address canonicalization, the inbound dispatch switch of
    handleConnection and its deferred cleanup.

Network effects are made explicit: whether a socket write succeeds is a
Boolean parameter (writeOk); time-valued fields (LastActive) and the raw
socket handle are omitted.  A ghost counter socketCloses records how many
times the underlying Conn.Close() has been invoked through the sync.Once
body, so that exactly-once teardown is expressible.
-/

namespace P2P

/-- Message is the wire envelope of peer/message/message.go: fields Type,
Sender, Content, Filename with JSON tags type, sender, content and
filename,omitempty. -/
structure Message where
  Typ : String  -- the Go field Type; Type is a reserved word in Lean
  Sender : String
  Content : String
  Filename : String
deriving DecidableEq

/-- Zero value of the Go Message struct, as produced by var m Message. -/
def zeroMessage : Message :=
  { Typ := "", Sender := "", Content := "", Filename := "" }

/-- JSON values, at the granularity the embedding needs: strings, objects
(ordered field lists), and a single constructor jother standing for every
other JSON value (number, boolean, null, array). -/
inductive Jval where
  | jstr : String → Jval
  | jobj : List (String × Jval) → Jval
  | jother : Jval

/-- Decoding errors of encoding/json as they matter here: badInput is a
syntax error (the bytes are not a JSON document), typeMismatch is an
UnmarshalTypeError (a field or the document has the wrong JSON type). -/
inductive DecodeErr where
  | badInput
  | typeMismatch
deriving DecidableEq

/-- json.Marshal of a Message: an object with fields type, sender, content,
and filename only when Filename is non-empty (the omitempty tag).
Marshalling a struct of plain strings never fails. -/
def marshal (m : Message) : Jval :=
  .jobj ([("type", .jstr m.Typ), ("sender", .jstr m.Sender), ("content", .jstr m.Content)]
    ++ (if m.Filename = "" then [] else [("filename", .jstr m.Filename)]))

/-- keepFirst e1 e2 : encoding/json records the first error it saves and
keeps decoding; later errors do not replace it. -/
def keepFirst (e1 e2 : Option DecodeErr) : Option DecodeErr :=
  match e1 with
  | some e => some e
  | none => e2

/-- One step of json.Unmarshal over a Message target: a recognized key whose
value is a JSON string sets the matching struct field; a recognized key with
any other value leaves the field and records a type mismatch; unknown keys
are ignored.  Later duplicates of a key overwrite earlier ones. -/
def applyField (acc : Message × Option DecodeErr) (key : String) (v : Jval) :
    Message × Option DecodeErr :=
  if key = "type" then
    match v with
    | .jstr s => ({ acc.1 with Typ := s }, acc.2)
    | _ => (acc.1, keepFirst acc.2 (some .typeMismatch))
  else if key = "sender" then
    match v with
    | .jstr s => ({ acc.1 with Sender := s }, acc.2)
    | _ => (acc.1, keepFirst acc.2 (some .typeMismatch))
  else if key = "content" then
    match v with
    | .jstr s => ({ acc.1 with Content := s }, acc.2)
    | _ => (acc.1, keepFirst acc.2 (some .typeMismatch))
  else if key = "filename" then
    match v with
    | .jstr s => ({ acc.1 with Filename := s }, acc.2)
    | _ => (acc.1, keepFirst acc.2 (some .typeMismatch))
  else (acc.1, acc.2)

/-- json.Unmarshal of a JSON object into the zero Message: fold applyField
over the object fields in order. -/
def unmarshalFields (fields : List (String × Jval)) : Message × Option DecodeErr :=
  fields.foldl (fun acc kv => applyField acc kv.1 kv.2) (zeroMessage, none)

/-- MessageFromBytes of message.go: var m Message; err := json.Unmarshal(b, &m);
return &m, err.  The input is the parse of the byte string (none when the
bytes are not JSON).  The returned pointer is always the address of m, so the
first component is always some; on failure m keeps its zero (or partially
populated) value. -/
def MessageFromBytes (input : Option Jval) : Option Message × Option DecodeErr :=
  match input with
  | none => (some zeroMessage, some .badInput)
  | some (.jobj fields) =>
      (some (unmarshalFields fields).1, (unmarshalFields fields).2)
  | some _ => (some zeroMessage, some .typeMismatch)

/-- MessageFromString of message.go: delegates to MessageFromBytes. -/
def MessageFromString (line : Option Jval) : Option Message × Option DecodeErr :=
  MessageFromBytes line

/-- Message.Bytes of message.go: json.Marshal; for this struct of plain
strings the error is always nil. -/
def Message.Bytes (m : Message) : Jval × Option DecodeErr :=
  (marshal m, none)

/-- NewMessage of message.go: switch on typeFormat with cases text and file
only; file requires a non-nil filename pointer; every other type string is
rejected with the error unknown type. -/
def NewMessage (typeFormat : String) (sender : String) (content : String)
    (filename : Option String) : Except String Message :=
  if typeFormat = "text" then
    .ok { Typ := "text", Sender := sender, Content := content, Filename := "" }
  else if typeFormat = "file" then
    match filename with
    | none => .error "filename is nil"
    | some f => .ok { Typ := "file", Sender := sender, Content := content, Filename := f }
  else .error "unknown type"

/-- Connection of peer/connection/conn.go.  The raw socket and LastActive
are omitted; remoteAddr is the value of Conn.RemoteAddr().String();
onceDone records whether the closeOnce sync.Once body has run; closedChan
records whether the closed channel has been closed; socketCloses is a ghost
counter of calls to the underlying Conn.Close(). -/
structure Connection where
  remoteAddr : String
  Username : String
  Save : Bool
  Chat : List Message
  onceDone : Bool
  closedChan : Bool
  IsClosed : Bool
  socketCloses : Nat
deriving DecidableEq

/-- Addr of conn.go: Conn.RemoteAddr().String(). -/
def Connection.Addr (c : Connection) : String :=
  c.remoteAddr

/-- SetUsername of conn.go. -/
def Connection.SetUsername (c : Connection) (username : String) : Connection :=
  { c with Username := username }

/-- AddMessages of conn.go: appends to the chat history. -/
def Connection.AddMessages (c : Connection) (messages : List Message) : Connection :=
  { c with Chat := c.Chat ++ messages }

/-- Close of conn.go: closeOnce.Do of a body that closes the closed channel,
closes the socket, and sets IsClosed; when the Once has already fired the
call does nothing. -/
def Connection.Close (c : Connection) : Connection :=
  if c.onceDone then c
  else { c with
    onceDone := true,
    closedChan := true,
    IsClosed := true,
    socketCloses := c.socketCloses + 1 }

/-- sendInfo of conn.go: Bytes on a string-field struct never fails, so the
result is exactly whether the socket write succeeded. -/
def Connection.sendInfo (_c : Connection) (_messageInfo : Message) (writeOk : Bool) : Bool :=
  writeOk

/-- Errors of the Send path: the serialize step (never hit for this struct)
and the write step. -/
inductive SendErr where
  | marshalFailure
  | sendFailure
deriving DecidableEq

/-- Send of conn.go: serializes (never fails for this struct), writes one
line with no retry; a failed write calls Close and returns an error; on a
successful write a text message is appended to the chat history when Save
is set. -/
def Connection.Send (c : Connection) (msg : Message) (writeOk : Bool) :
    Connection × Option SendErr :=
  if writeOk then
    (if msg.Typ = "text" ∧ c.Save = true then c.AddMessages [msg] else c, none)
  else
    (c.Close, some .sendFailure)

/-- NewConnection of conn.go: builds the record (Username starts as the
remote address, Save true, empty chat, not closed), synchronously sends the
info envelope, calls Close when that send failed, and in every case spawns
the heartbeat goroutine (go c.heartbeat() is unconditional); the Boolean in
the result records that the goroutine was spawned. -/
def NewConnection (remoteAddr : String) (info : Message) (writeOk : Bool) :
    Connection × Bool :=
  let c : Connection :=
    { remoteAddr := remoteAddr, Username := remoteAddr, Save := true, Chat := [],
      onceDone := false, closedChan := false, IsClosed := false, socketCloses := 0 }
  let c := if c.sendInfo info writeOk then c else c.Close
  (c, true)

/-- One iteration of the heartbeat select of conn.go: when the closed
channel is closed the task stops; otherwise the tick fires and the task
sends a heartbeat envelope. -/
inductive HeartbeatAction where
  | sendPing
  | stop
deriving DecidableEq

/-- heartbeatStep: the observable outcome of one select iteration of the
heartbeat loop in conn.go. -/
def Connection.heartbeatStep (c : Connection) : HeartbeatAction :=
  if c.closedChan then .stop else .sendPing

/-- The registry: the Peer's sync.Map from address to Connection, modelled
extensionally as a function. -/
abbrev Registry := String → Option Connection

/-- The empty registry. -/
def emptyRegistry : Registry := fun _ => none

/-- sync.Map.Store: unconditional insert-or-overwrite. -/
def Registry.store (r : Registry) (k : String) (c : Connection) : Registry :=
  fun a => if a = k then some c else r a

/-- sync.Map.Load. -/
def Registry.load (r : Registry) (k : String) : Option Connection :=
  r k

/-- sync.Map.Delete. -/
def Registry.delete (r : Registry) (k : String) : Registry :=
  fun a => if a = k then none else r a

/-- Splitting a character list at its unique colon: no colon, or more than
one colon, is an error (none). -/
def splitHostPortChars : List Char → Option (List Char × List Char)
  | [] => none
  | c :: rest =>
      if c = ':' then
        if rest.contains ':' then none else some ([], rest)
      else
        match splitHostPortChars rest with
        | some (h, p) => some (c :: h, p)
        | none => none

/-- net.SplitHostPort restricted to bracketless addresses: exactly one colon
splits into host and port, anything else (missing port, too many colons) is
an error; Go then returns empty host and port strings, and Peer.Store
ignores the error. -/
def splitHostPort (s : String) : Option (String × String) :=
  match splitHostPortChars s.data with
  | some (h, p) => some (⟨h⟩, ⟨p⟩)
  | none => none

/-- The key actually used by Peer.Store of peer.go: when SplitHostPort
yields host localhost the entry is stored under 127.0.0.1 with the same
port; every other key (including unsplittable ones, whose error is ignored
and whose host is then empty) is stored raw. -/
def peerStoreKey (key : String) : String :=
  match splitHostPort key with
  | some (host, port) => if host = "localhost" then "127.0.0.1:" ++ port else key
  | none => key

/-- Peer.Store of peer.go: canonicalizes the key, then sync.Map.Store. -/
def Peer.Store (r : Registry) (key : String) (c : Connection) : Registry :=
  r.store (peerStoreKey key) c

/-- The registration step of ConnectToPeer in peer.go once a dial succeeds:
if the raw address is already a key of the registry the function returns
without dialing or registering; otherwise the dialed connection is
registered via Peer.Store. -/
def connectToPeerStep (r : Registry) (address : String) (c : Connection) : Registry :=
  if (r.load address).isSome then r else Peer.Store r address c

/-- The switch of handleConnection in peer.go, routing one decoded envelope:
info sets the remote display name from the sender field, heartbeat is
dropped, text is appended to the chat history of the connection, log is
appended to the Peer's diagnostic log; any other type falls through the
switch unchanged. -/
def handleMessage (plog : List Message) (c : Connection) (msg : Message) :
    List Message × Connection :=
  if msg.Typ = "info" then (plog, c.SetUsername msg.Sender)
  else if msg.Typ = "heartbeat" then (plog, c)
  else if msg.Typ = "text" then (plog, c.AddMessages [msg])
  else if msg.Typ = "log" then (plog ++ [msg], c)
  else (plog, c)

/-- The deferred cleanup of handleConnection in peer.go, run exactly once
when the read loop exits for any reason: conn.Close() followed by
Connections.Delete(conn.Addr()), the raw remote address of the socket. -/
def handleConnectionExit (r : Registry) (c : Connection) : Registry × Connection :=
  (r.delete c.Addr, c.Close)

/-- registerConnection of peer.go: builds the local info envelope, opens the
connection over the socket, stores it under the given address via
Peer.Store, and hands it to handleConnection. -/
def registerConnection (r : Registry) (address : String) (remoteAddr : String)
    (username : String) (writeOk : Bool) : Registry × Connection :=
  let info : Message := { Typ := "info", Sender := username, Content := "", Filename := "" }
  let c := (NewConnection remoteAddr info writeOk).1
  (Peer.Store r address c, c)

/-- A concrete open connection, remote address 127.0.0.1:9000. -/
def connA : Connection :=
  { remoteAddr := "127.0.0.1:9000", Username := "alice", Save := true, Chat := [],
    onceDone := false, closedChan := false, IsClosed := false, socketCloses := 0 }

/-- A second concrete open connection at the same address, distinct from
connA. -/
def connB : Connection :=
  { connA with Username := "bob" }

/-- A concrete open connection whose socket remote address is the resolved
IP of a host name. -/
def connHost : Connection :=
  { connA with remoteAddr := "93.184.216.34:80" }

/-- A concrete info envelope. -/
def infoMsg : Message :=
  { Typ := "info", Sender := "nodeA", Content := "", Filename := "" }

/-- A concrete text envelope. -/
def textMsg : Message :=
  { Typ := "text", Sender := "nodeA", Content := "hi", Filename := "" }

/-- C1 counterexample: the registry already holds connA under
127.0.0.1:9000; a second registration of connB under the same address is
not rejected: Peer.Store (sync.Map.Store) overwrites, so the lookup now
returns connB, and connB is a different connection from connA. -/
theorem C1_counterexample :
    (Peer.Store (Peer.Store emptyRegistry "127.0.0.1:9000" connA)
        "127.0.0.1:9000" connB).load "127.0.0.1:9000" = some connB ∧
      connB ≠ connA :=
  ⟨by decide, by decide⟩

/-- C1 amended: registration is an unconditional insert-or-overwrite (the
most recent registration wins and there is no failure result); the only
duplicate avoidance is in the dial path, which returns without dialing or
registering when the raw address is already present. -/
theorem C1_register_overwrites (r : Registry) (k : String) (c : Connection) :
    (Peer.Store r k c).load (peerStoreKey k) = some c ∧
      ((r.load k).isSome = true → ∀ a, connectToPeerStep r k c a = r a) := by
  constructor
  · simp [Peer.Store, Registry.store, Registry.load]
  · intro h a
    simp [connectToPeerStep, h]

/-- C1 witness: concrete instance of C1_register_overwrites on a registry
that already holds connA at 127.0.0.1:9000. -/
theorem C1_witness :
    (Peer.Store (Peer.Store emptyRegistry "127.0.0.1:9000" connA)
        "127.0.0.1:9000" connB).load (peerStoreKey "127.0.0.1:9000") = some connB ∧
      connectToPeerStep (Peer.Store emptyRegistry "127.0.0.1:9000" connA)
          "127.0.0.1:9000" connB "127.0.0.1:9000" =
        Peer.Store emptyRegistry "127.0.0.1:9000" connA "127.0.0.1:9000" := by
  have h := C1_register_overwrites
    (Peer.Store emptyRegistry "127.0.0.1:9000" connA) "127.0.0.1:9000" connB
  exact ⟨h.1, h.2 (by decide) "127.0.0.1:9000"⟩

/-- C2: for every envelope whose kind is recognized and that respects the
file-kind-implies-non-empty-filename invariant, decoding the encoded value
yields the original envelope. -/
theorem C2_roundtrip (m : Message)
    (hkind : m.Typ = "info" ∨ m.Typ = "heartbeat" ∨ m.Typ = "text" ∨
      m.Typ = "file" ∨ m.Typ = "log")
    (hfile : m.Typ = "file" → m.Filename ≠ "") :
    MessageFromBytes (some (marshal m)) = (some m, none) := by
  obtain ⟨t, s, co, f⟩ := m
  by_cases hf : f = ""
  · subst hf
    rfl
  · simp only [MessageFromBytes, marshal, unmarshalFields, if_neg hf]
    rfl

/-- C2 witness: the round trip evaluated on a concrete file envelope. -/
theorem C2_witness :
    ((Message.mk "file" "nodeA" "payload" "f.txt").Typ = "info" ∨
      (Message.mk "file" "nodeA" "payload" "f.txt").Typ = "heartbeat" ∨
      (Message.mk "file" "nodeA" "payload" "f.txt").Typ = "text" ∨
      (Message.mk "file" "nodeA" "payload" "f.txt").Typ = "file" ∨
      (Message.mk "file" "nodeA" "payload" "f.txt").Typ = "log") ∧
    ((Message.mk "file" "nodeA" "payload" "f.txt").Typ = "file" →
      (Message.mk "file" "nodeA" "payload" "f.txt").Filename ≠ "") ∧
    MessageFromBytes (some (marshal (Message.mk "file" "nodeA" "payload" "f.txt"))) =
      (some (Message.mk "file" "nodeA" "payload" "f.txt"), none) :=
  ⟨by decide, by decide,
    C2_roundtrip (Message.mk "file" "nodeA" "payload" "f.txt") (by decide) (by decide)⟩

/-- C3 counterexample: with the initial info send failing, NewConnection
still spawns the heartbeat goroutine (second component true), refuting that
the liveness task is started only if the initial send succeeded; the
returned connection is indeed already closed. -/
theorem C3_counterexample :
    (NewConnection "1.2.3.4:5678" infoMsg false).2 = true ∧
      (NewConnection "1.2.3.4:5678" infoMsg false).1.IsClosed = true :=
  ⟨rfl, rfl⟩

/-- C3 amended: the heartbeat goroutine is spawned unconditionally; when
the initial send fails the connection is returned already closed and the
spawned task observes the closed channel and stops without sending a ping;
when the initial send succeeds the connection is returned open and the
spawned task sends pings. -/
theorem C3_spawn_unconditional (addr : String) (info : Message) :
    (NewConnection addr info false).1.IsClosed = true ∧
      (NewConnection addr info false).2 = true ∧
      (NewConnection addr info false).1.heartbeatStep = HeartbeatAction.stop ∧
      (NewConnection addr info true).1.IsClosed = false ∧
      (NewConnection addr info true).2 = true ∧
      (NewConnection addr info true).1.heartbeatStep = HeartbeatAction.sendPing :=
  ⟨rfl, rfl, rfl, rfl, rfl, rfl⟩

/-- C4: for every connection and envelope, a failed write in Send returns a
send failure, closes the connection as a side effect (no retry: the failure
path performs exactly the Close), and for a connection that was not already
closed the closed flag is observably true afterwards. -/
theorem C4_send_failure_closes (c : Connection) (msg : Message) :
    c.Send msg false = (c.Close, some SendErr.sendFailure) ∧
      (c.onceDone = false → (c.Send msg false).1.IsClosed = true) := by
  constructor
  · rfl
  · intro h
    simp [Connection.Send, Connection.Close, h]

/-- C4 witness: concrete instance of C4_send_failure_closes on the open
connection connA and a text envelope. -/
theorem C4_witness :
    connA.onceDone = false ∧
      connA.Send textMsg false = (connA.Close, some SendErr.sendFailure) ∧
      (connA.Send textMsg false).1.IsClosed = true :=
  ⟨rfl, (C4_send_failure_closes connA textMsg).1,
    (C4_send_failure_closes connA textMsg).2 rfl⟩

/-- C5 counterexample: registering under localhost:9000 and then looking up
the same spelling localhost:9000 finds nothing, because only Peer.Store
canonicalizes and Load uses the raw key; the entry lives under
127.0.0.1:9000.  Under the claim (canonicalization before every registry
operation, lookup included) the first lookup would have succeeded. -/
theorem C5_counterexample :
    (Peer.Store emptyRegistry "localhost:9000" connA).load "localhost:9000" = none ∧
      (Peer.Store emptyRegistry "localhost:9000" connA).load "127.0.0.1:9000" =
        some connA :=
  ⟨by decide, by decide⟩

/-- C5 amended: only the registration path canonicalizes (localhost:port is
rewritten to 127.0.0.1:port, other keys pass through unchanged); lookup and
removal use raw keys.  In particular register under localhost:9000 followed
by lookup of 127.0.0.1:9000 returns the connection, and in general lookup
of the canonicalized key succeeds. -/
theorem C5_store_canonicalizes (r : Registry) (c : Connection) :
    (Peer.Store r "localhost:9000" c).load "127.0.0.1:9000" = some c ∧
      (∀ k c2, (Peer.Store r k c2).load (peerStoreKey k) = some c2) ∧
      peerStoreKey "10.0.0.7:9000" = "10.0.0.7:9000" := by
  refine ⟨?_, ?_, by decide⟩
  · have h : peerStoreKey "localhost:9000" = "127.0.0.1:9000" := by decide
    simp [Peer.Store, Registry.store, Registry.load, h]
  · intro k c2
    simp [Peer.Store, Registry.store, Registry.load]

/-- C6: the inbound dispatch switch routes by kind: info updates the remote
display name to the sender field and leaves the chat log and the Peer log
untouched; heartbeat is discarded; text is appended to the connection's
chat log; log is appended to the Peer's diagnostic log. -/
theorem C6_dispatch_routing (plog : List Message) (c : Connection)
    (s co fn : String) :
    handleMessage plog c (Message.mk "info" s co fn) =
        (plog, { c with Username := s }) ∧
      handleMessage plog c (Message.mk "heartbeat" s co fn) = (plog, c) ∧
      handleMessage plog c (Message.mk "text" s co fn) =
        (plog, { c with Chat := c.Chat ++ [Message.mk "text" s co fn] }) ∧
      handleMessage plog c (Message.mk "log" s co fn) =
        (plog ++ [Message.mk "log" s co fn], c) :=
  ⟨rfl, rfl, rfl, rfl⟩

/-- C7 counterexample: an outbound connection registered under the dialed
host name example.com:80 while the socket's remote address is the resolved
IP 93.184.216.34:80.  The dispatch-loop cleanup deletes conn.Addr(), the
remote address, so after the loop exits the registry still contains the
address under which the connection was registered, even though the
connection itself was closed. -/
theorem C7_counterexample :
    (handleConnectionExit (Peer.Store emptyRegistry "example.com:80" connHost)
        connHost).1.load "example.com:80" = some connHost ∧
      (handleConnectionExit (Peer.Store emptyRegistry "example.com:80" connHost)
        connHost).2.IsClosed = true :=
  ⟨by decide, by decide⟩

/-- C7 amended: the cleanup closes the connection (socket teardown exactly
once for a not-yet-closed connection) and deletes the registry entry at the
socket's remote address; whenever the canonicalized registration key equals
that remote address — which holds for every inbound connection and for
outbound dials to a literal IP or to localhost — the registered address is
gone from the registry after the loop exits. -/
theorem C7_cleanup (r : Registry) (k : String) (c : Connection)
    (h1 : peerStoreKey k = c.remoteAddr) (h2 : c.onceDone = false) :
    (handleConnectionExit (Peer.Store r k c) c).1.load (peerStoreKey k) = none ∧
      (handleConnectionExit (Peer.Store r k c) c).2.IsClosed = true ∧
      (handleConnectionExit (Peer.Store r k c) c).2.socketCloses =
        c.socketCloses + 1 := by
  refine ⟨?_, ?_, ?_⟩
  · rw [h1]
    simp [handleConnectionExit, Registry.delete, Registry.load, Connection.Addr]
  · simp [handleConnectionExit, Connection.Close, h2]
  · simp [handleConnectionExit, Connection.Close, h2]

/-- C7 witness: concrete instance of C7_cleanup where the registration key
127.0.0.1:9000 coincides with the socket remote address of connA. -/
theorem C7_witness :
    peerStoreKey "127.0.0.1:9000" = connA.remoteAddr ∧
      connA.onceDone = false ∧
      (handleConnectionExit (Peer.Store emptyRegistry "127.0.0.1:9000" connA)
          connA).1.load (peerStoreKey "127.0.0.1:9000") = none ∧
      (handleConnectionExit (Peer.Store emptyRegistry "127.0.0.1:9000" connA)
          connA).2.IsClosed = true ∧
      (handleConnectionExit (Peer.Store emptyRegistry "127.0.0.1:9000" connA)
          connA).2.socketCloses = connA.socketCloses + 1 := by
  have h := C7_cleanup emptyRegistry "127.0.0.1:9000" connA (by decide) (by decide)
  exact ⟨by decide, by decide, h.1, h.2.1, h.2.2⟩

/-- C8 counterexample: construction rejects the recognized kinds info,
heartbeat and log with the error unknown type, although the claim says
construction succeeds for every recognized kind when the file precondition
holds. -/
theorem C8_counterexample :
    NewMessage "info" "a" "b" none = Except.error "unknown type" ∧
      NewMessage "heartbeat" "a" "" none = Except.error "unknown type" ∧
      NewMessage "log" "a" "b" none = Except.error "unknown type" :=
  ⟨rfl, rfl, rfl⟩

/-- C8 amended: construction succeeds exactly for kind text (filename
argument ignored) and for kind file with a filename present; it fails for
file without filename, and for every other kind string — including info,
heartbeat and log, which the code builds as struct literals instead. -/
theorem C8_newMessage_domain (sender content : String) (fn : Option String) :
    NewMessage "text" sender content fn =
        Except.ok (Message.mk "text" sender content "") ∧
      (∀ f, NewMessage "file" sender content (some f) =
        Except.ok (Message.mk "file" sender content f)) ∧
      NewMessage "file" sender content none = Except.error "filename is nil" ∧
      (∀ t, t ≠ "text" → t ≠ "file" →
        NewMessage t sender content fn = Except.error "unknown type") := by
  refine ⟨rfl, fun f => rfl, rfl, ?_⟩
  intro t ht hf
  simp [NewMessage, ht, hf]

/-- C8 witness: concrete instance of C8_newMessage_domain, with the
catch-all branch evaluated at the recognized kind info. -/
theorem C8_witness :
    NewMessage "text" "a" "b" none = Except.ok (Message.mk "text" "a" "b" "") ∧
      NewMessage "file" "a" "b" (some "f.txt") =
        Except.ok (Message.mk "file" "a" "b" "f.txt") ∧
      NewMessage "file" "a" "b" none = Except.error "filename is nil" ∧
      NewMessage "info" "a" "b" none = Except.error "unknown type" := by
  have h := C8_newMessage_domain "a" "b" none
  exact ⟨h.1, h.2.1 "f.txt", h.2.2.1, h.2.2.2 "info" (by decide) (by decide)⟩

/-- C9: Close is idempotent: on a connection whose once-guard has not fired,
the first call sets the closed flag and performs the socket teardown, the
second call is a no-op, the flag is true after each call, and the teardown
has run exactly once after both calls. -/
theorem C9_close_idempotent (c : Connection) (h : c.onceDone = false) :
    c.Close.IsClosed = true ∧
      c.Close.Close = c.Close ∧
      c.Close.Close.IsClosed = true ∧
      c.Close.socketCloses = c.socketCloses + 1 ∧
      c.Close.Close.socketCloses = c.socketCloses + 1 := by
  simp [Connection.Close, h]

/-- C9 witness: concrete instance of C9_close_idempotent on connA. -/
theorem C9_witness :
    connA.onceDone = false ∧
      connA.Close.IsClosed = true ∧
      connA.Close.Close = connA.Close ∧
      connA.Close.Close.IsClosed = true ∧
      connA.Close.socketCloses = connA.socketCloses + 1 ∧
      connA.Close.Close.socketCloses = connA.socketCloses + 1 := by
  have h := C9_close_idempotent connA rfl
  exact ⟨rfl, h.1, h.2.1, h.2.2.1, h.2.2.2.1, h.2.2.2.2⟩

/-- C10: for every input (a JSON value, or none for unparsable bytes),
decoding returns a message value alongside any error — the pointer returned
by MessageFromBytes is never nil. -/
theorem C10_decode_total (input : Option Jval) :
    ((MessageFromBytes input).1.isSome = true) ∧
      MessageFromBytes none = (some zeroMessage, some DecodeErr.badInput) := by
  refine ⟨?_, rfl⟩
  match input with
  | none => rfl
  | some (.jstr s) => rfl
  | some (.jobj fields) => rfl
  | some .jother => rfl

end P2P
